import Mathlib

/-!
Shallow embedding of the todo-item management layer of the repository
(`src/python/app`): the data model (`models.py`, `schemas.py`), the SQLite
storage backend (`storage/sqlite.py`), the service (`service.py`) and the
validated create endpoint of the HTTP layer (`main.py`).

Modelling conventions:
* Python `datetime` values are modelled as natural numbers; every call to
  `datetime.utcnow()` in the source becomes one explicit `Nat` parameter of
  the embedded operation, in source call order.
* `uuid.uuid4()` output is modelled as an explicit `PyUUID` parameter.
* The SQLite table `todo_items` is modelled as a list of rows
  (`TodoItemSchema`), keyed by the string primary-key column `id`.
* Python exceptions become `Except` values: `KeyError` raised by the storage
  code, the untyped `IntegrityError` the database driver raises when an
  insert violates the primary-key constraint, and `ValueError` from
  `uuid.UUID(...)` / `Status(...)` parsing.
-/

/-- Hexadecimal digit character for a value below 16, lowercase, as produced
by Python's `%x` formatting: 0-9 then a-f. -/
def hexChar (n : Nat) : Char :=
  if n < 10 then Char.ofNat (48 + n) else Char.ofNat (87 + n)

/-- Numeric value of a lowercase hexadecimal digit character, as read by
Python's `int(s, 16)`. -/
def hexVal (c : Char) : Nat :=
  if 97 ≤ c.toNat then c.toNat - 87 else c.toNat - 48

/-- Recognizer for the characters `hexChar` can produce. -/
def isHexChar (c : Char) : Bool :=
  (48 ≤ c.toNat && c.toNat ≤ 57) || (97 ≤ c.toNat && c.toNat ≤ 102)

/-- Little-endian list of `k` hexadecimal digit characters of `n`. -/
def toHexLE : Nat → Nat → List Char
  | 0, _ => []
  | k + 1, n => hexChar (n % 16) :: toHexLE k (n / 16)

/-- Value of a little-endian list of hexadecimal digit characters. -/
def ofHexLE : List Char → Nat
  | [] => 0
  | c :: cs => hexVal c + 16 * ofHexLE cs

lemma hexVal_hexChar (n : Nat) (h : n < 16) : hexVal (hexChar n) = n := by
  interval_cases n <;> rfl

lemma hexChar_ne_dash (n : Nat) (h : n < 16) : hexChar n ≠ '-' := by
  interval_cases n <;> decide

lemma isHexChar_hexChar (n : Nat) (h : n < 16) : isHexChar (hexChar n) = true := by
  interval_cases n <;> decide

lemma length_toHexLE (k n : Nat) : (toHexLE k n).length = k := by
  induction k generalizing n with
  | zero => rfl
  | succ k ih => simp [toHexLE, ih]

lemma mem_toHexLE {k n : Nat} {c : Char} (h : c ∈ toHexLE k n) :
    ∃ m, m < 16 ∧ c = hexChar m := by
  induction k generalizing n with
  | zero => simp [toHexLE] at h
  | succ k ih =>
    simp only [toHexLE, List.mem_cons] at h
    rcases h with h | h
    · exact ⟨n % 16, Nat.mod_lt _ (by norm_num), h⟩
    · exact ih h

lemma ofHexLE_toHexLE (k : Nat) : ∀ n, n < 16 ^ k → ofHexLE (toHexLE k n) = n := by
  induction k with
  | zero =>
    intro n h
    interval_cases n
    rfl
  | succ k ih =>
    intro n h
    have hdiv : n / 16 < 16 ^ k := by
      rw [Nat.div_lt_iff_lt_mul (by norm_num : 0 < 16)]
      calc n < 16 ^ (k + 1) := h
        _ = 16 ^ k * 16 := by ring
    simp only [toHexLE, ofHexLE]
    rw [hexVal_hexChar _ (Nat.mod_lt _ (by norm_num)), ih _ hdiv]
    exact Nat.mod_add_div n 16

/-- Model of Python's `uuid.UUID`: a 128-bit integer
(`UUID.int` is always in `[0, 2^128)`). -/
structure PyUUID where
  val : Nat
  isLt : val < 2 ^ 128

lemma PyUUID.eq_of_val_eq : ∀ {u v : PyUUID}, u.val = v.val → u = v
  | ⟨_, _⟩, ⟨_, _⟩, rfl => rfl

/-- The 32 hexadecimal digits of a UUID, most significant first
(Python's `'%032x' % self.int`). -/
def PyUUID.hex (u : PyUUID) : List Char :=
  (toHexLE 32 u.val).reverse

/-- The dash insertion of Python's `str(uuid)` formatting: the digit list
split into the 8-4-4-4-12 groups with a dash between consecutive groups. -/
def pyFormat (l : List Char) : List Char :=
  l.take 8 ++ '-' :: ((l.drop 8).take 4) ++ '-' :: ((l.drop 12).take 4) ++
    '-' :: ((l.drop 16).take 4) ++ '-' :: l.drop 20

/-- Model of Python's `str(uuid)`: the 32 hex digits grouped 8-4-4-4-12 with
dashes in between. -/
def PyUUID.toStr (u : PyUUID) : String :=
  ⟨pyFormat u.hex⟩

/-- Digit-level part of `uuid.UUID(s)`: require 32 hexadecimal digits
(most significant first) and read the integer. -/
def uuidParse (cs : List Char) : Option PyUUID :=
  if cs.length = 32 ∧ cs.all isHexChar = true then
    if hn : ofHexLE cs.reverse < 2 ^ 128 then some ⟨ofHexLE cs.reverse, hn⟩
    else none
  else none

/-- Model of Python's `uuid.UUID(s)` constructor on canonical strings: strip
dashes, require 32 hexadecimal digits, read the integer (raises `ValueError`,
i.e. returns `none`, otherwise). -/
def uuidFromString (s : String) : Option PyUUID :=
  uuidParse (s.data.filter (fun c => c != '-'))

lemma filter_ne_dash_of_hex {l : List Char} (h : ∀ c ∈ l, ∃ m, m < 16 ∧ c = hexChar m) :
    l.filter (fun c => c != '-') = l := by
  apply List.filter_eq_self.mpr
  intro c hc
  obtain ⟨m, hm, rfl⟩ := h c hc
  simpa using hexChar_ne_dash m hm

lemma mem_hex {u : PyUUID} {c : Char} (h : c ∈ u.hex) : ∃ m, m < 16 ∧ c = hexChar m :=
  mem_toHexLE (List.mem_reverse.mp h)

lemma list_reassemble (l : List Char) :
    l.take 8 ++ (l.drop 8).take 4 ++ (l.drop 12).take 4 ++
      (l.drop 16).take 4 ++ l.drop 20 = l := by
  simp only [List.append_assoc]
  have h20 : (l.drop 16).take 4 ++ l.drop 20 = l.drop 16 := by
    have : l.drop 20 = (l.drop 16).drop 4 := by
      rw [List.drop_drop]
    rw [this, List.take_append_drop]
  rw [h20]
  have h16 : (l.drop 12).take 4 ++ l.drop 16 = l.drop 12 := by
    have : l.drop 16 = (l.drop 12).drop 4 := by
      rw [List.drop_drop]
    rw [this, List.take_append_drop]
  rw [h16]
  have h12 : (l.drop 8).take 4 ++ l.drop 12 = l.drop 8 := by
    have : l.drop 12 = (l.drop 8).drop 4 := by
      rw [List.drop_drop]
    rw [this, List.take_append_drop]
  rw [h12, List.take_append_drop]

/-- Removing the dashes of `pyFormat` recovers the digit list, for any list
of hexadecimal digit characters. -/
lemma pyFormat_filter (l : List Char) (hmem : ∀ c ∈ l, ∃ m, m < 16 ∧ c = hexChar m) :
    (pyFormat l).filter (fun c => c != '-') = l := by
  have sub : ∀ l2 : List Char, l2 ⊆ l → l2.filter (fun c => c != '-') = l2 := by
    intro l2 h2
    exact filter_ne_dash_of_hex (fun c hc => hmem c (h2 hc))
  have hdash : (('-' : Char) != '-') = false := by decide
  unfold pyFormat
  simp only [List.filter_append, List.filter_cons, hdash, if_false, Bool.false_eq_true]
  rw [sub _ (List.take_subset _ _),
    sub _ (fun c hc => List.drop_subset _ _ (List.take_subset _ _ hc)),
    sub _ (fun c hc => List.drop_subset _ _ (List.take_subset _ _ hc)),
    sub _ (fun c hc => List.drop_subset _ _ (List.take_subset _ _ hc)),
    sub _ (List.drop_subset _ _)]
  exact list_reassemble l

/-- Evaluation of `uuidParse` on a list of 32 hexadecimal digits reading
back to an in-range value. -/
lemma uuidParse_of (cs : List Char) (n : Nat)
    (hlen : cs.length = 32) (hall : cs.all isHexChar = true)
    (hval : ofHexLE cs.reverse = n) (hn : n < 2 ^ 128) :
    uuidParse cs = some ⟨n, hn⟩ := by
  subst hval
  unfold uuidParse
  rw [if_pos ⟨hlen, hall⟩, dif_pos hn]

lemma hex_length (u : PyUUID) : u.hex.length = 32 := by
  unfold PyUUID.hex
  rw [List.length_reverse, length_toHexLE]

lemma hex_all (u : PyUUID) : u.hex.all isHexChar = true := by
  rw [List.all_eq_true]
  intro c hc
  obtain ⟨m, hm, rfl⟩ := mem_hex hc
  exact isHexChar_hexChar m hm

lemma hex_ofHexLE (u : PyUUID) : ofHexLE u.hex.reverse = u.val := by
  have hbound : u.val < 16 ^ 32 := by
    have h128 : (16 : Nat) ^ 32 = 2 ^ 128 := by norm_num
    rw [h128]
    exact u.isLt
  show ofHexLE (toHexLE 32 u.val).reverse.reverse = u.val
  rw [List.reverse_reverse]
  exact ofHexLE_toHexLE 32 u.val hbound

/-- Python's `uuid.UUID(str(u)) == u`: parsing the canonical string
representation recovers the UUID exactly. -/
theorem uuidFromString_toStr (u : PyUUID) : uuidFromString u.toStr = some u := by
  cases u with
  | mk v hv =>
    have hfilter : (PyUUID.toStr ⟨v, hv⟩).data.filter (fun c => c != '-') =
        PyUUID.hex ⟨v, hv⟩ :=
      pyFormat_filter (PyUUID.hex ⟨v, hv⟩) (fun c hc => mem_hex hc)
    show uuidParse ((PyUUID.toStr ⟨v, hv⟩).data.filter (fun c => c != '-')) = some ⟨v, hv⟩
    rw [hfilter]
    exact uuidParse_of (PyUUID.hex ⟨v, hv⟩) v (hex_length _) (hex_all _) (hex_ofHexLE _) hv

/-- Status enum for TodoItem (`models.py`): a closed three-value lifecycle
label. -/
inductive Status where
  | pending
  | in_progress
  | completed
deriving DecidableEq, Repr

/-- The `.value` string of a `Status` member, as stored in the `status`
column of the SQLite table. -/
def Status.value : Status → String
  | .pending => "PENDING"
  | .in_progress => "IN_PROGRESS"
  | .completed => "COMPLETED"

/-- Model of the enum constructor `Status(s)` (`models.py`): the member with
that value, or a `ValueError` (`none`) for any other string. -/
def statusFromString (s : String) : Option Status :=
  if s = "PENDING" then some .pending
  else if s = "IN_PROGRESS" then some .in_progress
  else if s = "COMPLETED" then some .completed
  else none

lemma statusFromString_value (st : Status) : statusFromString st.value = some st := by
  cases st <;> rfl

/-- TodoItem model (`models.py`), the value the Service hands to callers.
`datetime` fields are modelled as `Nat`. -/
structure TodoItem where
  id : PyUUID
  title : String
  description : String
  status : Status
  created_at : Nat
  updated_at : Nat

lemma TodoItem.eq_of_fields_eq : ∀ {a b : TodoItem},
    a.id = b.id → a.title = b.title → a.description = b.description →
    a.status = b.status → a.created_at = b.created_at → a.updated_at = b.updated_at → a = b
  | ⟨_, _, _, _, _, _⟩, ⟨_, _, _, _, _, _⟩, rfl, rfl, rfl, rfl, rfl, rfl => rfl

/-- Model for updating TodoItem (`models.py`, `TodoItemUpdate`): the request
body of the update endpoint carries exactly one **required** `status` field. -/
structure TodoItemUpdate where
  status : Status

/-- One row of the `todo_items` SQLite table (`schemas.py`,
`TodoItemSchema`): `id` is the `String` primary key, `status` is stored as
its string enumeration label. -/
structure TodoItemSchema where
  id : String
  title : String
  description : String
  status : String
  created_at : Nat
  updated_at : Nat
deriving DecidableEq, Repr

/-- The `todo_items` table: a list of rows, with the primary-key constraint
on the `id` column enforced by `SQLiteTodoStorage.create_todo` below. -/
abbrev Table := List TodoItemSchema

/-- Request schema `TodoCreate` (`schemas.py`): pydantic validation
constraints `title: min_length=1, max_length=100` and
`description: min_length=1`. -/
structure TodoCreate where
  title : String
  description : String

/-- The pydantic constraints of `TodoCreate` as a predicate: the HTTP layer
accepts the request body only when this holds. -/
def TodoCreate.valid (c : TodoCreate) : Prop :=
  1 ≤ c.title.length ∧ c.title.length ≤ 100 ∧ 1 ≤ c.description.length

instance (c : TodoCreate) : Decidable c.valid := by
  unfold TodoCreate.valid
  infer_instance

/-- Failure signals of the storage layer. `keyError` models the Python
`KeyError` the storage code raises for a missing id (the NotFound signal,
mapped to HTTP 404 by `main.py`); `integrityError` models the untyped
`IntegrityError` the database driver raises when an INSERT violates the
primary-key constraint; `valueError` models a Python `ValueError` from
`uuid.UUID(...)`/`Status(...)` parsing of a stored row; `duplicateKey` is the
typed duplicate-id failure of the spec's error taxonomy — no code path in
this repository produces it. -/
inductive StorageError where
  | keyError
  | integrityError
  | valueError
  | duplicateKey
deriving DecidableEq, Repr

namespace SQLiteTodoStorage

/-- `SQLiteTodoStorage._schema_to_model` (`storage/sqlite.py`): convert a
table row back into a `TodoItem` by parsing the id string and the status
label. -/
def schema_to_model (r : TodoItemSchema) : Option TodoItem :=
  match uuidFromString r.id, statusFromString r.status with
  | some u, some st =>
      some { id := u, title := r.title, description := r.description,
             status := st, created_at := r.created_at, updated_at := r.updated_at }
  | _, _ => none

/-- The row `create_todo` builds from an item (`storage/sqlite.py`, the
`TodoItemSchema(...)` construction): every column is the item's field passed
through verbatim, with `id` rendered by `str(item.id)` and `status` by
`item.status.value`. -/
def toSchema (item : TodoItem) : TodoItemSchema :=
  { id := item.id.toStr, title := item.title, description := item.description,
    status := item.status.value, created_at := item.created_at,
    updated_at := item.updated_at }

/-- The `SELECT ... WHERE TodoItemSchema.id == key` / `.first()` pattern used
by every storage operation: the first row whose `id` column equals the key. -/
def findRow (t : Table) (key : String) : Option TodoItemSchema :=
  t.find? (fun r => r.id == key)

/-- `SQLiteTodoStorage.create_todo`: insert the row built from the item and
return the item read back through `schema_to_model`. The INSERT commits only
if the primary key is fresh; otherwise the driver raises an untyped
`IntegrityError`. There is no explicit duplicate-id check in the code. -/
def create_todo (t : Table) (item : TodoItem) : Except StorageError (Table × TodoItem) :=
  if (findRow t (toSchema item).id).isSome then .error .integrityError
  else
    match schema_to_model (toSchema item) with
    | some it => .ok (t ++ [toSchema item], it)
    | none => .error .valueError

/-- `SQLiteTodoStorage.get_todo`: look the row up by `str(id)`; raise
`KeyError` if absent. -/
def get_todo (t : Table) (id : PyUUID) : Except StorageError TodoItem :=
  match findRow t id.toStr with
  | none => .error .keyError
  | some row =>
    match schema_to_model row with
    | some it => .ok it
    | none => .error .valueError

/-- `SQLiteTodoStorage.list_todos`: all rows, converted. -/
def list_todos (t : Table) : Except StorageError (List TodoItem) :=
  match t.mapM schema_to_model with
  | some l => .ok l
  | none => .error .valueError

/-- `SQLiteTodoStorage.update_todo(item)`: look the row up by `str(item.id)`
(raise `KeyError` if absent), then set the row's `status` column to
`item.status.value` and its `updated_at` column to a **fresh**
`datetime.utcnow()` read taken inside the storage layer — modelled by the
explicit parameter `tStore`. No other column is written. -/
def update_todo (t : Table) (item : TodoItem) (tStore : Nat) :
    Except StorageError (Table × TodoItem) :=
  match findRow t item.id.toStr with
  | none => .error .keyError
  | some row =>
    match schema_to_model { row with status := item.status.value, updated_at := tStore } with
    | some it =>
        .ok (t.map (fun r => if r.id == item.id.toStr
              then { row with status := item.status.value, updated_at := tStore } else r), it)
    | none => .error .valueError

/-- `SQLiteTodoStorage.delete_todo`: look the row up by `str(id)` (raise
`KeyError` if absent), then delete it. -/
def delete_todo (t : Table) (id : PyUUID) : Except StorageError Table :=
  match findRow t id.toStr with
  | none => .error .keyError
  | some _ => .ok (t.filter (fun r => !(r.id == id.toStr)))

end SQLiteTodoStorage

namespace TodoService

/-- `TodoService.add_todo(title, description)` (`service.py`): build a
`TodoItem` with `status = PENDING`, `created_at` and `updated_at` from two
separate `datetime.utcnow()` calls (parameters `t1`, `t2`, in source order),
an id from `uuid4()` (parameter `freshId`), and persist it via
`storage.create_todo`. No validation of `title` or `description` happens
here. -/
def add_todo (t : Table) (title description : String) (freshId : PyUUID)
    (t1 t2 : Nat) : Except StorageError (Table × TodoItem) :=
  let todo_item : TodoItem :=
    { id := freshId, title := title, description := description,
      status := .pending, created_at := t1, updated_at := t2 }
  SQLiteTodoStorage.create_todo t todo_item

/-- `TodoService.get_todo`: delegates to `storage.get_todo` unchanged. -/
def get_todo (t : Table) (id : PyUUID) : Except StorageError TodoItem :=
  SQLiteTodoStorage.get_todo t id

/-- `TodoService.list_todos`: delegates to `storage.list_todos` unchanged. -/
def list_todos (t : Table) : Except StorageError (List TodoItem) :=
  SQLiteTodoStorage.list_todos t

/-- `TodoService.update_todo(id, status)` (`service.py`): fetch the existing
item (propagating `KeyError`), set its `status` and set `updated_at` to a
service-side `datetime.utcnow()` read (parameter `tSvc`), then persist via
`storage.update_todo`, whose own clock read is `tStore`. -/
def update_todo (t : Table) (id : PyUUID) (status : Status) (tSvc tStore : Nat) :
    Except StorageError (Table × TodoItem) :=
  match get_todo t id with
  | .error e => .error e
  | .ok todo_item =>
      SQLiteTodoStorage.update_todo t
        { todo_item with status := status, updated_at := tSvc } tStore

/-- `TodoService.delete_todo`: delegates to `storage.delete_todo` unchanged. -/
def delete_todo (t : Table) (id : PyUUID) : Except StorageError Table :=
  SQLiteTodoStorage.delete_todo t id

end TodoService

/-- Failure signals visible at the HTTP boundary (`main.py`):
`invalidArgument` is the 422 pydantic validation failure, `storage` wraps a
failure propagated from below. -/
inductive ApiError where
  | invalidArgument
  | storage (e : StorageError)
deriving DecidableEq, Repr

/-- The create endpoint `POST /todos` (`main.py`): the request body is parsed
into `TodoCreate`, whose pydantic constraints reject invalid input with a 422
before the service is invoked; on valid input it calls
`service.add_todo(todo.title, todo.description)`. Returns the table after
the call together with the response. -/
def api_create_todo (t : Table) (title description : String) (freshId : PyUUID)
    (t1 t2 : Nat) : Table × Except ApiError TodoItem :=
  if TodoCreate.valid { title := title, description := description } then
    match TodoService.add_todo t title description freshId t1 t2 with
    | .ok (t', item) => (t', .ok item)
    | .error e => (t, .error (.storage e))
  else (t, .error .invalidArgument)

namespace SQLiteTodoStorage

/-- Reading back the row `create_todo` writes recovers the item
field-for-field: `UUID(str(id))` and `Status(status.value)` are exact
inverses, every other column is copied. -/
lemma schema_to_model_toSchema (item : TodoItem) :
    schema_to_model (toSchema item) = some item := by
  unfold schema_to_model toSchema
  simp only [uuidFromString_toStr, statusFromString_value]

lemma findRow_eq_none (t : Table) (key : String) (h : ∀ r ∈ t, r.id ≠ key) :
    findRow t key = none := by
  unfold findRow
  rw [List.find?_eq_none]
  intro r hr
  simpa using h r hr

lemma findRow_mem {t : Table} {key : String} {row : TodoItemSchema}
    (h : findRow t key = some row) : row ∈ t ∧ row.id = key := by
  refine ⟨List.mem_of_find?_eq_some h, ?_⟩
  have := List.find?_some h
  simpa using this

lemma toSchema_id (item : TodoItem) : (toSchema item).id = item.id.toStr := rfl

/-- Successful run of `create_todo` on a fresh id: the row built from the
item is appended verbatim and the item itself is returned. -/
lemma create_todo_of_fresh (t : Table) (item : TodoItem)
    (hfresh : ∀ r ∈ t, r.id ≠ item.id.toStr) :
    create_todo t item = .ok (t ++ [toSchema item], item) := by
  unfold create_todo
  rw [toSchema_id, findRow_eq_none t _ hfresh]
  simp only [Option.isSome_none, Bool.false_eq_true, if_false,
    schema_to_model_toSchema]

/-- Inversion of a successful `create_todo`: success forces a fresh id, the
appended row, and the returned item being the argument. -/
lemma create_todo_ok_inv {t : Table} {item : TodoItem} {t' : Table} {it : TodoItem}
    (h : create_todo t item = .ok (t', it)) :
    (∀ r ∈ t, r.id ≠ item.id.toStr) ∧ t' = t ++ [toSchema item] ∧ it = item := by
  unfold create_todo at h
  by_cases hf : (findRow t (toSchema item).id).isSome
  · rw [if_pos hf] at h
    simp at h
  · rw [if_neg hf, schema_to_model_toSchema] at h
    simp only [Except.ok.injEq, Prod.mk.injEq] at h
    obtain ⟨ht, hit⟩ := h
    refine ⟨?_, ht.symm, hit.symm⟩
    intro r hr hid
    apply hf
    unfold findRow
    rw [List.find?_isSome]
    exact ⟨r, hr, by simp [toSchema_id, hid]⟩

/-- Inversion of a successful `delete_todo`: the result is the table with
every row carrying the deleted id filtered out. -/
lemma delete_todo_ok_inv {t : Table} {id : PyUUID} {t' : Table}
    (h : delete_todo t id = .ok t') :
    t' = t.filter (fun r => !(r.id == id.toStr)) := by
  unfold delete_todo at h
  cases hf : findRow t id.toStr with
  | none => rw [hf] at h; exact absurd h (by simp)
  | some row => rw [hf] at h; injection h with h'; exact h'.symm

end SQLiteTodoStorage

namespace SQLiteTodoStorage

lemma findRow_none_forall {t : Table} {key : String} (h : findRow t key = none) :
    ∀ r ∈ t, r.id ≠ key := by
  unfold findRow at h
  rw [List.find?_eq_none] at h
  intro r hr
  simpa using h r hr

lemma mem_filter_id_ne (t : Table) (key : String) :
    ∀ r ∈ t.filter (fun r => !(r.id == key)), r.id ≠ key := by
  intro r hr
  have := (List.mem_filter.mp hr).2
  simpa using this

/-- `get_todo` on an id no row carries raises `KeyError`. -/
lemma get_todo_of_absent (t : Table) (id : PyUUID) (h : ∀ r ∈ t, r.id ≠ id.toStr) :
    get_todo t id = .error .keyError := by
  unfold get_todo
  rw [findRow_eq_none t _ h]

/-- `delete_todo` on an id no row carries raises `KeyError`. -/
lemma delete_todo_of_absent (t : Table) (id : PyUUID) (h : ∀ r ∈ t, r.id ≠ id.toStr) :
    delete_todo t id = .error .keyError := by
  unfold delete_todo
  rw [findRow_eq_none t _ h]

/-- Inversion of `schema_to_model`: a successful conversion pins every field
of the item to the corresponding column. -/
lemma schema_to_model_inv {r : TodoItemSchema} {it : TodoItem}
    (h : schema_to_model r = some it) :
    uuidFromString r.id = some it.id ∧ statusFromString r.status = some it.status ∧
    it.title = r.title ∧ it.description = r.description ∧
    it.created_at = r.created_at ∧ it.updated_at = r.updated_at := by
  unfold schema_to_model at h
  cases hu : uuidFromString r.id with
  | none => rw [hu] at h; simp at h
  | some u =>
    cases hs : statusFromString r.status with
    | none => rw [hu, hs] at h; simp at h
    | some st1 =>
      rw [hu, hs] at h
      simp only [Option.some.injEq] at h
      rw [← h]
      exact ⟨rfl, rfl, rfl, rfl, rfl, rfl⟩

/-- Successful run of the storage `update_todo`: the matched row's `status`
and `updated_at` columns are overwritten (the latter with the storage-layer
clock read `tStore`), every other column and every other row is unchanged,
and the written row is returned converted. -/
lemma update_row_run (t : Table) (item : TodoItem) (tStore : Nat)
    (row : TodoItemSchema)
    (hfind : findRow t item.id.toStr = some row) :
    update_todo t item tStore =
      .ok (t.map (fun r => if r.id == item.id.toStr
              then { row with status := item.status.value, updated_at := tStore } else r),
           { id := item.id, title := row.title, description := row.description,
             status := item.status, created_at := row.created_at, updated_at := tStore }) := by
  have hid : row.id = item.id.toStr := (findRow_mem hfind).2
  have hparse2 : schema_to_model { row with status := item.status.value, updated_at := tStore } =
      some { id := item.id, title := row.title, description := row.description,
             status := item.status, created_at := row.created_at, updated_at := tStore } := by
    unfold schema_to_model
    simp only []
    rw [hid, uuidFromString_toStr, statusFromString_value]
  unfold update_todo
  rw [hfind]
  simp only [hparse2]

end SQLiteTodoStorage

namespace TodoService

/-- Service-level `update_todo` on an absent id propagates the storage
`KeyError` unchanged. -/
lemma update_todo_of_absent (t : Table) (id : PyUUID) (st : Status)
    (tSvc tStore : Nat) (h : ∀ r ∈ t, r.id ≠ id.toStr) :
    update_todo t id st tSvc tStore = .error .keyError := by
  unfold update_todo get_todo SQLiteTodoStorage.get_todo
  rw [SQLiteTodoStorage.findRow_eq_none t _ h]

/-- Successful run of the service `update_todo` over a stored row whose
status column parses: the service fetches the item, sets `status := st` and
`updated_at := tSvc`, and the storage layer then persists `status` and its
own clock read `tStore` as `updated_at` — the persisted row discards
`tSvc`. -/
lemma update_status_run (t : Table) (id : PyUUID) (st : Status) (tSvc tStore : Nat)
    (row : TodoItemSchema) (st0 : Status)
    (hfind : SQLiteTodoStorage.findRow t id.toStr = some row)
    (hst0 : statusFromString row.status = some st0) :
    update_todo t id st tSvc tStore =
      .ok (t.map (fun r => if r.id == id.toStr
              then { row with status := st.value, updated_at := tStore } else r),
           { id := id, title := row.title, description := row.description,
             status := st, created_at := row.created_at, updated_at := tStore }) := by
  have hid : row.id = id.toStr := (SQLiteTodoStorage.findRow_mem hfind).2
  have hparse : SQLiteTodoStorage.schema_to_model row =
      some { id := id, title := row.title, description := row.description,
             status := st0, created_at := row.created_at, updated_at := row.updated_at } := by
    unfold SQLiteTodoStorage.schema_to_model
    rw [hid, uuidFromString_toStr, hst0]
  unfold update_todo get_todo SQLiteTodoStorage.get_todo
  rw [hfind]
  simp only [hparse]
  exact SQLiteTodoStorage.update_row_run t _ tStore row hfind

/-- Inversion of a successful service `update_todo`: success forces a
matched row and pins the resulting table. -/
lemma update_todo_ok_inv {t : Table} {id : PyUUID} {st : Status}
    {tSvc tStore : Nat} {t' : Table} {it : TodoItem}
    (h : update_todo t id st tSvc tStore = .ok (t', it)) :
    ∃ row, SQLiteTodoStorage.findRow t id.toStr = some row ∧
      t' = t.map (fun r => if r.id == id.toStr
            then { row with status := st.value, updated_at := tStore } else r) := by
  cases hfind : SQLiteTodoStorage.findRow t id.toStr with
  | none =>
    rw [update_todo_of_absent t id st tSvc tStore
      (SQLiteTodoStorage.findRow_none_forall hfind)] at h
    simp at h
  | some row =>
    cases hparse : SQLiteTodoStorage.schema_to_model row with
    | none =>
      unfold update_todo get_todo SQLiteTodoStorage.get_todo at h
      rw [hfind] at h
      simp only [hparse] at h
      exact absurd h (by simp)
    | some item =>
      have hst0 : statusFromString row.status = some item.status :=
        (SQLiteTodoStorage.schema_to_model_inv hparse).2.1
      rw [update_status_run t id st tSvc tStore row item.status hfind hst0] at h
      simp only [Except.ok.injEq, Prod.mk.injEq] at h
      exact ⟨row, rfl, h.1.symm⟩

end TodoService

lemma TodoCreate.valid_def (title description : String) :
    TodoCreate.valid { title := title, description := description } ↔
      (1 ≤ title.length ∧ title.length ≤ 100 ∧ 1 ≤ description.length) :=
  Iff.rfl

lemma String.ne_empty_of_one_le_length {s : String} (h : 1 ≤ s.length) : s ≠ "" := by
  intro he
  rw [he] at h
  exact absurd h (by decide)

/-- All stored items have `updated_at ≥ created_at` and non-empty `title`
and `description` columns (the item invariant of the spec, stated on the
persisted table). -/
def TableInv (t : Table) : Prop :=
  ∀ r ∈ t, r.created_at ≤ r.updated_at ∧ r.title ≠ "" ∧ r.description ≠ ""

/-- Concrete UUID fixtures for witnesses and counterexamples. -/
def uuid0 : PyUUID := ⟨0, by norm_num⟩

def uuid1 : PyUUID := ⟨1, by norm_num⟩

/-- A stored row with id `str(uuid0)`, as written by a create at time 0. -/
def row0 : TodoItemSchema :=
  { id := "00000000-0000-0000-0000-000000000000", title := "Buy milk",
    description := "2% milk", status := "PENDING", created_at := 0, updated_at := 0 }

/-- The item a create of ("a", "b") at time 0 with id `uuid0` returns. -/
def itemA : TodoItem :=
  { id := uuid0, title := "a", description := "b", status := .pending,
    created_at := 0, updated_at := 0 }

/-- A fully-formed item with the fresh id `uuid1`. -/
def item1 : TodoItem :=
  { id := uuid1, title := "Second", description := "desc", status := .pending,
    created_at := 3, updated_at := 3 }

/-- A fully-formed item whose id collides with `row0`'s stored id. -/
def item0 : TodoItem :=
  { id := uuid0, title := "dup", description := "dup", status := .pending,
    created_at := 0, updated_at := 0 }

/-- C1 (amended): the rejection of empty `title`/`description` and of a
`title` over 100 characters is enforced by the `TodoCreate` request schema
at the API boundary, not by `TodoService.add_todo`: for every such pair the
create endpoint answers the pydantic validation failure (`InvalidArgument`,
HTTP 422) with the service never invoked and the table unchanged. -/
theorem C1_invalid_create_rejected_before_service
    (t : Table) (title description : String) (freshId : PyUUID) (t1 t2 : Nat)
    (h : title = "" ∨ description = "" ∨ 100 < title.length) :
    api_create_todo t title description freshId t1 t2 = (t, .error .invalidArgument) := by
  have hnv : ¬ TodoCreate.valid { title := title, description := description } := by
    rw [TodoCreate.valid_def]
    rcases h with h | h | h
    · intro hv
      exact absurd (h ▸ hv.1) (by decide)
    · intro hv
      exact absurd (h ▸ hv.2.2) (by decide)
    · intro hv
      omega
  unfold api_create_todo
  rw [if_neg hnv]

/-- Witness for C1 at `("", "x")`. -/
theorem C1_witness :
    api_create_todo [] "" "x" uuid0 0 0 = ([], .error .invalidArgument) :=
  C1_invalid_create_rejected_before_service [] "" "x" uuid0 0 0 (Or.inl rfl)

/-- C1 counterexample: the claim locates the rejection in
`TodoService.add_todo`, but calling the Service's create directly with the
empty title `""` succeeds and persists a row whose `title` column is empty —
the Service performs no validation and signals no `InvalidArgument`. -/
theorem C1_counterexample :
    TodoService.add_todo [] "" "x" uuid0 0 0 =
      .ok ([{ id := "00000000-0000-0000-0000-000000000000", title := "",
              description := "x", status := "PENDING", created_at := 0, updated_at := 0 }],
           { id := uuid0, title := "", description := "x", status := .pending,
             created_at := 0, updated_at := 0 }) := by
  rfl

/-- C2 (amended): the Service's Update takes a single **required** status
(the `TodoItemUpdate` body has no other field); it overwrites `status`,
refreshes `updatedAt`, and every other field of the resulting item —
`title`, `description`, `createdAt`, `id` — retains its prior stored value.
Title and description are not updatable through Update, and a patch with
zero fields set is not representable. -/
theorem C2_update_patch_is_required_status_only
    (t : Table) (id : PyUUID) (st : Status) (tSvc tStore : Nat)
    (row : TodoItemSchema) (st0 : Status)
    (hfind : SQLiteTodoStorage.findRow t id.toStr = some row)
    (hst0 : statusFromString row.status = some st0) :
    (TodoService.update_todo t id st tSvc tStore).map (fun p => p.2) =
      .ok { id := id, title := row.title, description := row.description,
            status := st, created_at := row.created_at, updated_at := tStore } := by
  rw [TodoService.update_status_run t id st tSvc tStore row st0 hfind hst0]
  rfl

/-- Witness for C2 on the one-row table `[row0]`. -/
theorem C2_witness :
    (TodoService.update_todo [row0] uuid0 .completed 5 6).map (fun p => p.2) =
      .ok { id := uuid0, title := row0.title, description := row0.description,
            status := .completed, created_at := row0.created_at, updated_at := 6 } :=
  C2_update_patch_is_required_status_only [row0] uuid0 .completed 5 6 row0 .pending rfl rfl

/-- C2 counterexample: the claim makes `title` and `description` updatable
through Update, but the update request body (`TodoItemUpdate`) carries only
a required `status`, so the three calls below exhaust every patch the
operation accepts on this state — and each returns (and stores) the old
title `"Buy milk"` unchanged; no zero-field patch exists either. -/
theorem C2_counterexample :
    (TodoService.update_todo [row0] uuid0 .pending 5 6).map (fun p => p.2.title) =
        .ok "Buy milk"
    ∧ (TodoService.update_todo [row0] uuid0 .in_progress 5 6).map (fun p => p.2.title) =
        .ok "Buy milk"
    ∧ (TodoService.update_todo [row0] uuid0 .completed 5 6).map (fun p => p.2.title) =
        .ok "Buy milk"
    ∧ (TodoService.update_todo [row0] uuid0 .pending 5 6).map
        (fun p => p.1.map (fun r => r.title)) = .ok ["Buy milk"]
    ∧ (TodoService.update_todo [row0] uuid0 .in_progress 5 6).map
        (fun p => p.1.map (fun r => r.title)) = .ok ["Buy milk"]
    ∧ (TodoService.update_todo [row0] uuid0 .completed 5 6).map
        (fun p => p.1.map (fun r => r.title)) = .ok ["Buy milk"] :=
  ⟨rfl, rfl, rfl, rfl, rfl, rfl⟩

/-- C3 (amended): a successful create returns an item with
`status = Pending` whose `createdAt` and `updatedAt` come from two separate
successive `datetime.utcnow()` reads — so `createdAt ≤ updatedAt` whenever
the second read is not earlier than the first, but not exact equality — and
whose id differs from the id of every row already in storage (a colliding id
would have made the insert fail instead of succeed). -/
theorem C3_create_defaults
    (t : Table) (title description : String) (freshId : PyUUID) (t1 t2 : Nat)
    (t' : Table) (it : TodoItem) (hle : t1 ≤ t2)
    (h : TodoService.add_todo t title description freshId t1 t2 = .ok (t', it)) :
    it.status = .pending ∧ it.created_at ≤ it.updated_at ∧
    ∀ r ∈ t, r.id ≠ it.id.toStr := by
  unfold TodoService.add_todo at h
  obtain ⟨hfresh, -, hit⟩ := SQLiteTodoStorage.create_todo_ok_inv h
  subst hit
  exact ⟨rfl, hle, hfresh⟩

/-- Witness for C3: creating ("a", "b") at times (0, 0) on the empty table. -/
theorem C3_witness :
    itemA.status = .pending ∧ itemA.created_at ≤ itemA.updated_at ∧
    ∀ r ∈ ([] : Table), r.id ≠ itemA.id.toStr :=
  C3_create_defaults [] "a" "b" uuid0 0 0 [SQLiteTodoStorage.toSchema itemA] itemA
    (by decide) rfl

/-- C3 counterexample: the claim requires `createdAt = updatedAt` exactly,
but `add_todo` calls `datetime.utcnow()` twice; on an execution where the
two reads differ (here 0 then 1) the returned item has
`createdAt = 0 ≠ 1 = updatedAt`. -/
theorem C3_counterexample :
    (TodoService.add_todo [] "a" "b" uuid0 0 1).map
        (fun p => (p.2.created_at, p.2.updated_at)) = .ok (0, 1)
    ∧ (0 : Nat) ≠ 1 :=
  ⟨rfl, by decide⟩

/-- C4 (amended): Storage passes `id` and `createdAt` through verbatim and
never generates or overrides them — on create every column of the persisted
row is the Service-passed value, and on update neither the `id` nor the
`created_at` column is written — but the `updated_at` value persisted on
update is **Storage-assigned**: `SQLiteTodoStorage.update_todo` overwrites
it with its own `datetime.utcnow()` read (`tStore`), discarding the value
the Service assigned immediately before persistence (`tSvc`). -/
theorem C4_storage_verbatim_but_updated_at_storage_assigned
    (t : Table) (item : TodoItem) (id : PyUUID) (st : Status) (tSvc tStore : Nat)
    (row : TodoItemSchema) (st0 : Status)
    (hfresh : ∀ r ∈ t, r.id ≠ item.id.toStr)
    (hfind : SQLiteTodoStorage.findRow t id.toStr = some row)
    (hst0 : statusFromString row.status = some st0) :
    SQLiteTodoStorage.create_todo t item =
      .ok (t ++ [{ id := item.id.toStr, title := item.title,
                   description := item.description, status := item.status.value,
                   created_at := item.created_at, updated_at := item.updated_at }],
           item)
    ∧ (TodoService.update_todo t id st tSvc tStore).map (fun p => p.1) =
        .ok (t.map (fun r => if r.id == id.toStr
              then { row with status := st.value, updated_at := tStore } else r)) := by
  constructor
  · exact SQLiteTodoStorage.create_todo_of_fresh t item hfresh
  · rw [TodoService.update_status_run t id st tSvc tStore row st0 hfind hst0]
    rfl

/-- Witness for C4: create `item1` and update `row0`'s item with
`tSvc = 1`, `tStore = 2` on the one-row table. -/
theorem C4_witness :
    SQLiteTodoStorage.create_todo [row0] item1 =
      .ok ([row0] ++ [{ id := item1.id.toStr, title := item1.title,
                        description := item1.description, status := item1.status.value,
                        created_at := item1.created_at, updated_at := item1.updated_at }],
           item1)
    ∧ (TodoService.update_todo [row0] uuid0 .in_progress 1 2).map (fun p => p.1) =
        .ok ([row0].map (fun r => if r.id == uuid0.toStr
              then { row0 with status := Status.in_progress.value, updated_at := 2 } else r)) :=
  C4_storage_verbatim_but_updated_at_storage_assigned [row0] item1 uuid0 .in_progress 1 2
    row0 .pending (by decide) rfl rfl

/-- C4 counterexample: the Service assigns `updatedAt = 1` immediately
before persistence, but the value persisted in storage is `2` — the
storage-layer clock read — so the persisted `updatedAt` is not the
Service-assigned one. -/
theorem C4_counterexample :
    (TodoService.update_todo [row0] uuid0 .in_progress 1 2).map
        (fun p => p.1.map (fun r => r.updated_at)) = .ok [2]
    ∧ (2 : Nat) ≠ 1 :=
  ⟨rfl, by decide⟩

/-- C5 (confirmed): on an id held by no stored row, the Service's Get,
Update and Delete each fail with the `KeyError` NotFound signal, and for Get
and Delete the Service's answer is definitionally the Storage answer — the
service code wraps the storage call in no handler, so the storage-level
signal reaches the caller unchanged (Update fails inside its initial
`storage.get_todo` fetch, propagated the same way). -/
theorem C5_absent_id_not_found
    (t : Table) (id : PyUUID) (st : Status) (tSvc tStore : Nat)
    (habs : ∀ r ∈ t, r.id ≠ id.toStr) :
    TodoService.get_todo t id = .error .keyError
    ∧ TodoService.update_todo t id st tSvc tStore = .error .keyError
    ∧ TodoService.delete_todo t id = .error .keyError
    ∧ TodoService.get_todo t id = SQLiteTodoStorage.get_todo t id
    ∧ TodoService.delete_todo t id = SQLiteTodoStorage.delete_todo t id :=
  ⟨SQLiteTodoStorage.get_todo_of_absent t id habs,
    TodoService.update_todo_of_absent t id st tSvc tStore habs,
    SQLiteTodoStorage.delete_todo_of_absent t id habs, rfl, rfl⟩

/-- Witness for C5: `uuid1` is not stored in the one-row table `[row0]`. -/
theorem C5_witness :
    TodoService.get_todo [row0] uuid1 = .error .keyError
    ∧ TodoService.update_todo [row0] uuid1 .pending 0 0 = .error .keyError
    ∧ TodoService.delete_todo [row0] uuid1 = .error .keyError
    ∧ TodoService.get_todo [row0] uuid1 = SQLiteTodoStorage.get_todo [row0] uuid1
    ∧ TodoService.delete_todo [row0] uuid1 = SQLiteTodoStorage.delete_todo [row0] uuid1 :=
  C5_absent_id_not_found [row0] uuid1 .pending 0 0 (by decide)

namespace SQLiteTodoStorage

/-- Looking up the updated key in the written-back table finds exactly the
rewritten row. -/
lemma findRow_map_update (t : Table) (key : String) (row2 : TodoItemSchema)
    (hrow2 : row2.id = key) :
    findRow (t.map (fun r => if r.id == key then row2 else r)) key =
      (findRow t key).map (fun r => if r.id == key then row2 else r) := by
  unfold findRow
  rw [List.find?_map]
  have hpred : ((fun r : TodoItemSchema => r.id == key) ∘
      fun r => if r.id == key then row2 else r) = (fun r => r.id == key) := by
    funext r
    show ((if (r.id == key) = true then row2 else r).id == key) = (r.id == key)
    by_cases h : (r.id == key) = true
    · rw [if_pos h, h]
      simp [hrow2]
    · rw [if_neg h]
  rw [hpred]

end SQLiteTodoStorage

/-- C6 (confirmed): updating an existing item with the status-only patch
changes exactly the `status` and `updated_at` columns of its stored record:
afterwards the record found under the same id agrees with the old row on
`id`, `title`, `description` and `created_at`, carries the new status label
and the fresh `updated_at`, and every other row of the table is untouched.
(The hypothesis that the old status label parses holds for every row this
system itself has written.) -/
theorem C6_status_only_update_frame
    (t : Table) (id : PyUUID) (st : Status) (tSvc tStore : Nat)
    (row : TodoItemSchema) (st0 : Status)
    (hfind : SQLiteTodoStorage.findRow t id.toStr = some row)
    (hst0 : statusFromString row.status = some st0) :
    ∀ t' it, TodoService.update_todo t id st tSvc tStore = .ok (t', it) →
      ∃ row', SQLiteTodoStorage.findRow t' id.toStr = some row' ∧
        row'.id = row.id ∧ row'.title = row.title ∧
        row'.description = row.description ∧ row'.created_at = row.created_at ∧
        row'.status = st.value ∧ row'.updated_at = tStore ∧
        ∀ r' ∈ t', r'.id ≠ id.toStr → r' ∈ t := by
  intro t' it h
  have hid : row.id = id.toStr := (SQLiteTodoStorage.findRow_mem hfind).2
  rw [TodoService.update_status_run t id st tSvc tStore row st0 hfind hst0] at h
  simp only [Except.ok.injEq, Prod.mk.injEq] at h
  obtain ⟨ht', -⟩ := h
  refine ⟨{ row with status := st.value, updated_at := tStore },
    ?_, rfl, rfl, rfl, rfl, rfl, rfl, ?_⟩
  · rw [← ht', SQLiteTodoStorage.findRow_map_update t id.toStr
      { row with status := st.value, updated_at := tStore } hid, hfind]
    simp [hid]
  · intro r' hr' hne
    rw [← ht'] at hr'
    obtain ⟨r, hr, hfr⟩ := List.mem_map.mp hr'
    by_cases hcase : (r.id == id.toStr) = true
    · rw [if_pos hcase] at hfr
      exact absurd (hfr ▸ hid) hne
    · rw [if_neg hcase] at hfr
      rw [← hfr]
      exact hr

/-- The stored row after the C6 witness update. -/
def row0up : TodoItemSchema :=
  { row0 with status := "IN_PROGRESS", updated_at := 6 }

/-- The item the C6 witness update returns. -/
def itemUp : TodoItem :=
  { id := uuid0, title := "Buy milk", description := "2% milk",
    status := .in_progress, created_at := 0, updated_at := 6 }

/-- Witness for C6: the scenario update on the one-row table. -/
theorem C6_witness :
    ∃ row', SQLiteTodoStorage.findRow [row0up] uuid0.toStr = some row' ∧
      row'.id = row0.id ∧ row'.title = row0.title ∧
      row'.description = row0.description ∧ row'.created_at = row0.created_at ∧
      row'.status = Status.in_progress.value ∧ row'.updated_at = 6 ∧
      ∀ r' ∈ [row0up], r'.id ≠ uuid0.toStr → r' ∈ [row0] :=
  C6_status_only_update_frame [row0] uuid0 .in_progress 5 6 row0 .pending rfl rfl
    [row0up] itemUp rfl

/-- C7 (amended): stored items always satisfy
`created_at ≤ updated_at` (given clock reads that do not run backwards) and
keep non-empty `title`/`description` provided every create goes through the
API-level `TodoCreate` validation: the validated create endpoint, the status
update and the delete each preserve the table invariant (Get and List write
nothing). `TodoService.add_todo` alone does **not** preserve it — see the
counterexample — because the Service layer never validates. -/
theorem C7_invariant_preservation
    (t : Table) (title description : String) (u : PyUUID) (t1 t2 : Nat)
    (id : PyUUID) (st : Status) (tSvc tStore : Nat)
    (hInv : TableInv t) :
    (∀ t' r, t1 ≤ t2 → api_create_todo t title description u t1 t2 = (t', r) →
      TableInv t')
    ∧ (∀ t' it, (∀ q ∈ t, q.created_at ≤ tStore) →
        TodoService.update_todo t id st tSvc tStore = .ok (t', it) → TableInv t')
    ∧ (∀ t', TodoService.delete_todo t id = .ok t' → TableInv t') := by
  refine ⟨?_, ?_, ?_⟩
  · intro t' r hle h
    unfold api_create_todo at h
    by_cases hv : TodoCreate.valid { title := title, description := description }
    · rw [if_pos hv] at h
      rw [TodoCreate.valid_def] at hv
      cases hadd : TodoService.add_todo t title description u t1 t2 with
      | error e =>
        rw [hadd] at h
        simp only [Prod.mk.injEq] at h
        rw [← h.1]
        exact hInv
      | ok p =>
        obtain ⟨ta, ita⟩ := p
        rw [hadd] at h
        simp only [Prod.mk.injEq] at h
        unfold TodoService.add_todo at hadd
        obtain ⟨-, hta, -⟩ := SQLiteTodoStorage.create_todo_ok_inv hadd
        rw [← h.1, hta]
        intro q hq
        rcases List.mem_append.mp hq with hmem | hmem
        · exact hInv q hmem
        · rw [List.mem_singleton.mp hmem]
          exact ⟨hle, String.ne_empty_of_one_le_length hv.1,
            String.ne_empty_of_one_le_length hv.2.2⟩
    · rw [if_neg hv] at h
      simp only [Prod.mk.injEq] at h
      rw [← h.1]
      exact hInv
  · intro t' it hclock h
    obtain ⟨row, hfind, ht'⟩ := TodoService.update_todo_ok_inv h
    have hmemrow := (SQLiteTodoStorage.findRow_mem hfind).1
    subst ht'
    intro r' hr'
    obtain ⟨r, hr, hfr⟩ := List.mem_map.mp hr'
    by_cases hcase : (r.id == id.toStr) = true
    · rw [if_pos hcase] at hfr
      rw [← hfr]
      exact ⟨hclock row hmemrow, (hInv row hmemrow).2.1, (hInv row hmemrow).2.2⟩
    · rw [if_neg hcase] at hfr
      rw [← hfr]
      exact hInv r hr
  · intro t' h
    have ht' := SQLiteTodoStorage.delete_todo_ok_inv h
    subst ht'
    intro r hr
    exact hInv r (List.mem_of_mem_filter hr)

/-- Witness for C7: a validated create on the empty table yields an
invariant-satisfying table. -/
theorem C7_witness : TableInv [SQLiteTodoStorage.toSchema itemA] :=
  (C7_invariant_preservation [] "a" "b" uuid0 0 0 uuid0 .pending 0 0
      (by unfold TableInv; decide)).1
    [SQLiteTodoStorage.toSchema itemA] (.ok itemA) (by decide) rfl

/-- C7 counterexample: the claim makes the non-emptiness invariant hold
after every accepted write of the Service, but `TodoService.add_todo`
accepts an empty description and persists it, producing a stored table that
violates the invariant. -/
theorem C7_counterexample :
    TodoService.add_todo [] "y" "" uuid0 0 0 =
      .ok ([{ id := "00000000-0000-0000-0000-000000000000", title := "y",
              description := "", status := "PENDING", created_at := 0, updated_at := 0 }],
           { id := uuid0, title := "y", description := "", status := .pending,
             created_at := 0, updated_at := 0 })
    ∧ ¬ TableInv [{ id := "00000000-0000-0000-0000-000000000000", title := "y",
                    description := "", status := "PENDING",
                    created_at := 0, updated_at := 0 }] := by
  refine ⟨rfl, ?_⟩
  unfold TableInv
  decide

/-- C8 (confirmed): after a successful Delete of an id, Get on that id
fails with the `KeyError` NotFound signal — the deleted row is gone and no
remaining row carries the id. -/
theorem C8_get_after_delete
    (t : Table) (id : PyUUID) (t' : Table)
    (h : TodoService.delete_todo t id = .ok t') :
    TodoService.get_todo t' id = .error .keyError := by
  unfold TodoService.delete_todo at h
  have ht' := SQLiteTodoStorage.delete_todo_ok_inv h
  subst ht'
  exact SQLiteTodoStorage.get_todo_of_absent _ id
    (SQLiteTodoStorage.mem_filter_id_ne t id.toStr)

/-- Witness for C8: delete the only row, then get its id. -/
theorem C8_witness : TodoService.get_todo [] uuid0 = .error .keyError :=
  C8_get_after_delete [row0] uuid0 [] rfl

/-- C9 (amended): `SQLiteTodoStorage.create_todo` contains no explicit
duplicate-id check and defines no typed `DuplicateKey` failure; inserting an
item whose id is already stored violates the `id` primary-key constraint and
surfaces as the untyped `IntegrityError` of the database driver, which is
not the spec's `DuplicateKey`. -/
theorem C9_duplicate_id_insert_is_untyped
    (t : Table) (item : TodoItem) (r : TodoItemSchema)
    (hr : r ∈ t) (hid : r.id = item.id.toStr) :
    SQLiteTodoStorage.create_todo t item = .error .integrityError
    ∧ StorageError.integrityError ≠ StorageError.duplicateKey := by
  refine ⟨?_, by decide⟩
  unfold SQLiteTodoStorage.create_todo
  have hsome : (SQLiteTodoStorage.findRow t (SQLiteTodoStorage.toSchema item).id).isSome = true := by
    unfold SQLiteTodoStorage.findRow
    rw [List.find?_isSome]
    exact ⟨r, hr, by rw [SQLiteTodoStorage.toSchema_id]; simp [hid]⟩
  rw [if_pos hsome]

/-- Witness for C9: inserting `item0`, whose id is `row0`'s stored id. -/
theorem C9_witness :
    SQLiteTodoStorage.create_todo [row0] item0 = .error .integrityError
    ∧ StorageError.integrityError ≠ StorageError.duplicateKey :=
  C9_duplicate_id_insert_is_untyped [row0] item0 row0 (by decide) (by decide)

/-- A second fully-formed item colliding with `row0`'s stored id. -/
def item0b : TodoItem :=
  { id := uuid0, title := "again", description := "again", status := .completed,
    created_at := 1, updated_at := 1 }

/-- C9 counterexample: the claim requires the duplicate insert to fail with
the **typed** `DuplicateKey`; on this concrete duplicate it fails with the
untyped `IntegrityError` instead, which is a different failure. -/
theorem C9_counterexample :
    SQLiteTodoStorage.create_todo [row0] item0b = .error .integrityError
    ∧ (Except.error StorageError.integrityError :
        Except StorageError (Table × TodoItem)) ≠ .error .duplicateKey := by
  refine ⟨rfl, ?_⟩
  intro h
  injection h with h'
  exact StorageError.noConfusion h'

/-- C10 (confirmed): a create on a fresh id persists exactly the row built
from the item and returns an item equal field-for-field to its argument —
the round trip through the persisted `TodoItemSchema` row and
`schema_to_model` is the identity on `id`, `title`, `description`, `status`,
`created_at` and `updated_at`. -/
theorem C10_create_roundtrip_exact
    (t : Table) (item : TodoItem)
    (hfresh : ∀ r ∈ t, r.id ≠ item.id.toStr) :
    SQLiteTodoStorage.schema_to_model (SQLiteTodoStorage.toSchema item) = some item
    ∧ SQLiteTodoStorage.create_todo t item =
        .ok (t ++ [SQLiteTodoStorage.toSchema item], item) :=
  ⟨SQLiteTodoStorage.schema_to_model_toSchema item,
    SQLiteTodoStorage.create_todo_of_fresh t item hfresh⟩

/-- Witness for C10 on the empty table with `item1`. -/
theorem C10_witness :
    SQLiteTodoStorage.schema_to_model (SQLiteTodoStorage.toSchema item1) = some item1
    ∧ SQLiteTodoStorage.create_todo [] item1 =
        .ok ([] ++ [SQLiteTodoStorage.toSchema item1], item1) :=
  C10_create_roundtrip_exact [] item1 (by decide)
